import Mathlib

/-!
Shallow embedding of the middleware pipeline examples of the
`quick-stream-example` repository (an Apollo Router plugin demo).

Each definition below embeds a function or closure of the Rust source,
file by file:
  * the JSON-ish payload envelope and the graphql error records
    (`graphql::Response` as consumed by the plugins),
  * the dynamically typed per-request `Context` with typed accessors,
  * the peekable response stream used by `catch_invalid_type_error.rs`,
  * the response transforms of `change_status_code.rs`,
    `catch_query_planner_error.rs`, `catch_invalid_type_error.rs`,
    `response_stream_context_propagation.rs` and `test_plugin.rs`.

Streams are embedded as finite lists of payloads; the shared `Context`
is threaded explicitly through the closures that mutate it.
-/

namespace QuickStream

/-- A JSON-like value as stored in error `extensions` maps
(`serde_json_bytes::Value` restricted to the shapes the plugins touch). -/
inductive Value where
  | str (s : String)
  | num (n : Int)
  | bool (b : Bool)
  | null
deriving DecidableEq, Repr

/-- A graphql error record: a message plus an extensions map used, by
convention, to classify the error kind under the key "type". -/
structure GraphQLError where
  message : String
  extensions : List (String × Value)
deriving DecidableEq, Repr

/-- One response payload (`apollo_router::graphql::Response`): an optional
data section, an ordered list of error records, and an extensions map. -/
structure Payload where
  dataField : Option Value
  errors : List GraphQLError
  extensions : List (String × Value)
deriving DecidableEq, Repr

/-- A dynamically typed value stored in the shared `Context`.  The plugins
store a `u16` status code, a `bool` debug flag, a `u8` marker, and a
`Vec<(String, Duration)>` of subgraph response times (durations are
embedded as natural numbers of nanoseconds). -/
inductive CtxVal where
  | u16 (n : Nat)
  | u8 (n : Nat)
  | bool (b : Bool)
  | durations (l : List (String × Nat))
deriving DecidableEq, Repr

/-- The per-request shared `Context`: a dynamically typed map from string
keys to values.  All clones of a request's lineage share one store; the
embedding threads that single store explicitly. -/
structure Context where
  entries : List (String × CtxVal)
deriving DecidableEq, Repr

/-- Raw lookup of a key in the context store (most recent write wins). -/
def Context.getRaw (ctx : Context) (k : String) : Option CtxVal :=
  ctx.entries.lookup k

/-- Last-write-wins insertion (`Context::insert`, ignoring the returned
previous value, as every call site in the repository does). -/
def Context.insert (ctx : Context) (k : String) (v : CtxVal) : Context :=
  ⟨(k, v) :: ctx.entries⟩

/-- Typed read at `u16` (`context.get::<_, u16>(key)`): `none` if the key
is absent, the value if it is stored as a `u16`, and an error if a value
of a different stored type is present. -/
def Context.getU16 (ctx : Context) (k : String) : Except Unit (Option Nat) :=
  match ctx.getRaw k with
  | none => .ok none
  | some (.u16 n) => .ok (some n)
  | some _ => .error ()

/-- Typed read at `u8` (`context.get::<_, u8>(key)`). -/
def Context.getU8 (ctx : Context) (k : String) : Except Unit (Option Nat) :=
  match ctx.getRaw k with
  | none => .ok none
  | some (.u8 n) => .ok (some n)
  | some _ => .error ()

/-- Typed read at `Vec<(String, Duration)>`
(`context.get::<_, Vec<(String, Duration)>>(key)`). -/
def Context.getDurations (ctx : Context) (k : String) :
    Except Unit (Option (List (String × Nat))) :=
  match ctx.getRaw k with
  | none => .ok none
  | some (.durations l) => .ok (some l)
  | some _ => .error ()

/-- Validity range of `http::StatusCode::from_u16`: codes 100..=999. -/
def validStatusCode (n : Nat) : Bool :=
  100 ≤ n && n ≤ 999

/-- The combinator `StatusCode::from_u16(v).unwrap_or_else(|_| StatusCode::OK)`
used by the router-level response transforms: an out-of-range `u16` falls
back to the default success status 200. -/
def statusFromU16OrOK (n : Nat) : Nat :=
  if validStatusCode n then n else 200

/-- The peekable response stream (`futures::stream::Peekable` as used in
`catch_invalid_type_error.rs`): a buffered head slot plus the not yet
pulled remainder of the stream, embedded as a list. -/
structure PeekableStream (α : Type) where
  buf : Option α
  rest : List α
deriving DecidableEq, Repr

/-- Wrap a plain stream of payloads (`body.peekable()`): nothing buffered. -/
def PeekableStream.ofList {α : Type} (l : List α) : PeekableStream α :=
  ⟨none, l⟩

/-- Non-destructive peek (`Pin::new(&mut peekable).peek().await`): polls the
inner stream for the first item if none is buffered yet, buffers it, and
returns it; the item stays in the stream. -/
def PeekableStream.peek {α : Type} : PeekableStream α → Option α × PeekableStream α
  | ⟨some a, rest⟩ => (some a, ⟨some a, rest⟩)
  | ⟨none, a :: rest⟩ => (some a, ⟨some a, rest⟩)
  | ⟨none, []⟩ => (none, ⟨none, []⟩)

/-- Pulling the next item when the stream is consumed: a buffered peeked
item is yielded first, then the remainder in arrival order. -/
def PeekableStream.next {α : Type} : PeekableStream α → Option α × PeekableStream α
  | ⟨some a, rest⟩ => (some a, ⟨none, rest⟩)
  | ⟨none, a :: rest⟩ => (some a, ⟨none, rest⟩)
  | ⟨none, []⟩ => (none, ⟨none, []⟩)

/-- Draining the stream to exhaustion by repeated `next` (what the eventual
consumer of the forwarded body observes). -/
def PeekableStream.toList {α : Type} : PeekableStream α → List α
  | ⟨some a, rest⟩ => a :: PeekableStream.toList ⟨none, rest⟩
  | ⟨none, a :: rest⟩ => a :: PeekableStream.toList ⟨none, rest⟩
  | ⟨none, []⟩ => []
termination_by s => (if s.buf.isSome then 1 else 0) + s.rest.length

/-- A router-level response (`router::Response` / `RouterResponse`): the
outward transport status, the body stream, and the shared context. -/
structure RouterResponse where
  status : Nat
  body : List Payload
  context : Context
deriving DecidableEq, Repr

/-- A subgraph-level response (`subgraph::Response`): the downstream call's
transport status and the shared context. -/
structure SubgraphResponse where
  status : Nat
  context : Context
deriving DecidableEq, Repr

/-- The `map_response` closure of `router_service` in
`change_status_code.rs` (the identical closure also appears in
`catch_query_planner_error.rs`): if the context holds a `u16` under
"set_status_code", overwrite the outward status with
`StatusCode::from_u16(v).unwrap_or_else(|_| StatusCode::OK)`; on a missing
key or a type-mismatched read the response passes through untouched. -/
def changeStatusCode_router_map (r : RouterResponse) : RouterResponse :=
  match r.context.getU16 "set_status_code" with
  | .ok (some v) => { r with status := statusFromU16OrOK v }
  | _ => r

/-- The `map_response` closure of `subgraph_service` in
`change_status_code.rs`: when the downstream call came back with transport
status 200, record the intent to answer 401 by inserting
`("set_status_code", 401u16)` into the shared context. -/
def changeStatusCode_subgraph_map (res : SubgraphResponse) : SubgraphResponse :=
  if res.status = 200 then
    { res with context := res.context.insert "set_status_code" (.u16 401) }
  else
    res

/-- A supergraph-level response (`supergraph::Response`): transport parts
(status), the streamed body, and the shared context. -/
structure SupergraphResponse where
  status : Nat
  body : List Payload
  context : Context
deriving DecidableEq, Repr

/-- The predicate checked on the first payload in
`catch_invalid_type_error.rs`: some error record's extensions entry
"type" equals the string "ValidationInvalidTypeVariable". -/
def hasInvalidTypeError (p : Payload) : Bool :=
  p.errors.any fun e =>
    e.extensions.lookup "type" == some (Value.str "ValidationInvalidTypeVariable")

/-- The `map_future` transform of `supergraph_service` in
`catch_invalid_type_error.rs` (successful-response path): make the body
peekable, peek the first payload, set the status to UNAUTHORIZED (401) if
it carries the invalid-type error, and forward the still intact peekable
stream as the new body. -/
def catchInvalidTypeError_mapFuture (r : SupergraphResponse) : SupergraphResponse :=
  let peeked := (PeekableStream.ofList r.body).peek
  let status :=
    match peeked.1 with
    | some first_payload => if hasInvalidTypeError first_payload then 401 else r.status
    | none => r.status
  { r with status := status, body := peeked.2.toList }

/-- The `map_first_graphql_response` transform of `supergraph_service` in
`catch_invalid_type_error.rs`: the closure receives the transport parts and
the first graphql response, sets the status to 401 if that first response
carries the invalid-type error, and re-emits it unchanged ahead of the
remaining payloads.  With no first response the closure never runs. -/
def catchInvalidTypeError_mapFirst (r : SupergraphResponse) : SupergraphResponse :=
  match r.body with
  | [] => r
  | first :: rest =>
      let status := if hasInvalidTypeError first then 401 else r.status
      { r with status := status, body := first :: rest }

/-- `CatchInvalidTypeError::supergraph_service`: with `enabled = true` the
inner service is returned unchanged; otherwise the service is wrapped with
the `map_future` peek transform and, outside it, the
`map_first_graphql_response` transform. -/
def catchInvalidTypeError_supergraph (enabled : Bool) (r : SupergraphResponse) :
    SupergraphResponse :=
  if enabled then r
  else catchInvalidTypeError_mapFirst (catchInvalidTypeError_mapFuture r)

/-- The opaque, type-erased error (`tower::BoxError`) a query-planning
call may fail with.  `invalidType` stands for a box wrapping
`CacheResolverError::RetrievalError(QueryPlannerError::SpecError(SpecError::InvalidType(message)))`,
the leaf variant the downcast chain targets; `other` is any unrelated
opaque error. -/
inductive BoxError where
  | invalidType (message : String)
  | other (description : String)
deriving DecidableEq, Repr

/-- A query-planner response (`query_planner::Response`): only the shared
context matters to the wrapper. -/
structure QueryPlannerResponse where
  context : Context
deriving DecidableEq, Repr

/-- The `map_future_with_context` closure of `query_planning_service` in
`catch_query_planner_error.rs`.  In the source the whole downcast chain
(narrowing the `BoxError` and inserting `("set_status_code", 401u16)` on an
invalid-type error) is commented out behind a TODO awaiting a query-planner
refactor: the active code awaits the future and returns its result
unchanged, leaving the context untouched. -/
def catchQueryPlannerError_qp_map (ctx : Context)
    (result : Except BoxError QueryPlannerResponse) :
    Context × Except BoxError QueryPlannerResponse :=
  (ctx, result)

/-- The per-payload execution-level stream closure of
`response_stream_context_propagation.rs` (`handle_execution_response`):
inserts `("after-first-response-context", 42)` into the shared context and
returns the payload unchanged. -/
def handle_execution_response (body : Payload) (context : Context) :
    Payload × Context :=
  (body, context.insert "after-first-response-context" (.u8 42))

/-- The per-payload router-level stream closure of
`response_stream_context_propagation.rs` (`handle_router_response`): its
assertion reads "after-first-response-context" as a `u8` from the shared
context (the embedding records what that read returns); the payload is
returned unchanged. -/
def handle_router_response (body : Payload) (context : Context) :
    Payload × Except Unit (Option Nat) :=
  (body, context.getU8 "after-first-response-context")

/-- The composed per-payload pipeline of
`response_stream_context_propagation.rs`: the execution-level stream map
wraps the body first; the router-level stream map wraps that.  Each payload
pulled by the client therefore passes `handle_execution_response`, then
`handle_router_response`, in order, against the one shared context.  The
result pairs each forwarded payload with the value the router-level
closure's read observed. -/
def processStream (context : Context) :
    List Payload → List (Payload × Except Unit (Option Nat)) × Context
  | [] => ([], context)
  | body :: rest =>
      let stepExec := handle_execution_response body context
      let stepRouter := handle_router_response stepExec.1 stepExec.2
      let tail := processStream stepExec.2 rest
      ((stepRouter.1, stepRouter.2) :: tail.1, tail.2)

/-- The per-payload execution-level stream closure of `test_plugin.rs`
(`handle_execution_response` there): inserts
`("after-response-value", 42)` and returns the body unchanged. -/
def testPlugin_handle_execution_response (body : Payload) (context : Context) :
    Payload × Context :=
  (body, context.insert "after-response-value" (.u8 42))

/-- The per-payload router-level stream closure of `test_plugin.rs`
(`handle_router_response` there): reads "after-response-value" as a `u8`
and "subgraph-response-times" as a duration list, logs, and returns the
body unchanged; the embedding records both reads. -/
def testPlugin_handle_router_response (body : Payload) (context : Context) :
    Payload × Except Unit (Option Nat) × Except Unit (Option (List (String × Nat))) :=
  (body, context.getU8 "after-response-value",
    context.getDurations "subgraph-response-times")

/-- Modelled from the spec: `Context::upsert` is implemented in the
`apollo_router` dependency, not in this repository's sources.  Per §4.1 it
atomically reads the current value (or the type's default — the empty list
for a `Vec` — if the key is absent), applies the update function, and
stores the result as one step.  Specialised to the duration-list type the
repository stores under its upserted key. -/
def Context.upsert (ctx : Context) (k : String)
    (f : List (String × Nat) → List (String × Nat)) : Context :=
  let current : List (String × Nat) :=
    match ctx.getRaw k with
    | some (.durations l) => l
    | _ => []
  ctx.insert k (.durations (f current))

/-- The timing closure of `subgraph_service` in
`response_stream_context_propagation.rs` (and identically in
`test_plugin.rs`): once the subgraph call finishes, upsert
"subgraph-response-times", pushing `(service_name, duration)` onto the
accumulated list. -/
def subgraphTiming_upsert (service_name : String) (duration : Nat)
    (ctx : Context) : Context :=
  ctx.upsert "subgraph-response-times" fun response_times =>
    response_times ++ [(service_name, duration)]

/-- N concurrent subgraph calls each perform one atomic
`subgraphTiming_upsert` step; an interleaving of atomic steps is a
sequential order in which the steps hit the store.  Running the appends in
the order a given interleaving dictates: -/
def runTimingAppends (calls : List (String × Nat)) (ctx : Context) : Context :=
  calls.foldl (fun c e => subgraphTiming_upsert e.1 e.2 c) ctx

/-- The duration list currently accumulated under "subgraph-response-times"
(empty if the key is absent). -/
def storedTimings (ctx : Context) : List (String × Nat) :=
  match ctx.getRaw "subgraph-response-times" with
  | some (.durations l) => l
  | _ => []

/-! Helper lemmas shared by the claim theorems. -/

theorem Context.getRaw_insert_self (ctx : Context) (k : String) (v : CtxVal) :
    (ctx.insert k v).getRaw k = some v := by
  simp [Context.getRaw, Context.insert, List.lookup]

theorem PeekableStream.toList_mk_none {α : Type} (l : List α) :
    (PeekableStream.mk none l).toList = l := by
  induction l with
  | nil => rw [PeekableStream.toList]
  | cons a t ih => rw [PeekableStream.toList, ih]

theorem PeekableStream.toList_mk_some {α : Type} (a : α) (l : List α) :
    (PeekableStream.mk (some a) l).toList = a :: l := by
  rw [PeekableStream.toList, PeekableStream.toList_mk_none]

theorem PeekableStream.ofList_toList {α : Type} (l : List α) :
    (PeekableStream.ofList l).toList = l := by
  simpa [PeekableStream.ofList] using PeekableStream.toList_mk_none l

theorem PeekableStream.peek_ofList_fst {α : Type} (l : List α) :
    (PeekableStream.ofList l).peek.1 = l.head? := by
  cases l <;> rfl

theorem PeekableStream.peek_ofList_toList {α : Type} (l : List α) :
    ((PeekableStream.ofList l).peek.2).toList = l := by
  cases l with
  | nil => exact PeekableStream.toList_mk_none []
  | cons a t =>
      show (PeekableStream.mk (some a) t).toList = a :: t
      exact PeekableStream.toList_mk_some a t

theorem catchInvalidTypeError_mapFuture_body (r : SupergraphResponse) :
    (catchInvalidTypeError_mapFuture r).body = r.body := by
  simp [catchInvalidTypeError_mapFuture, PeekableStream.peek_ofList_toList]

theorem catchInvalidTypeError_mapFirst_body (r : SupergraphResponse) :
    (catchInvalidTypeError_mapFirst r).body = r.body := by
  cases h : r.body <;> simp [catchInvalidTypeError_mapFirst, h]

theorem processStream_payloads (context : Context) (bodies : List Payload) :
    (processStream context bodies).1.map Prod.fst = bodies := by
  induction bodies generalizing context with
  | nil => rfl
  | cons b t ih =>
      simp [processStream, handle_execution_response, handle_router_response, ih]

theorem runTimingAppends_getRaw (calls : List (String × Nat)) (ctx : Context)
    (l : List (String × Nat))
    (h : ctx.getRaw "subgraph-response-times" = some (.durations l)) :
    (runTimingAppends calls ctx).getRaw "subgraph-response-times" =
      some (.durations (l ++ calls)) := by
  induction calls generalizing ctx l with
  | nil => simpa [runTimingAppends] using h
  | cons e t ih =>
      have hstep :
          (subgraphTiming_upsert e.1 e.2 ctx).getRaw "subgraph-response-times" =
            some (.durations (l ++ [e])) := by
        simp [subgraphTiming_upsert, Context.upsert, h, Context.getRaw_insert_self]
      have := ih (subgraphTiming_upsert e.1 e.2 ctx) (l ++ [e]) hstep
      simpa [runTimingAppends, List.append_assoc] using this

/-! Claim theorems. -/

/-- C1: for every sequence of response payloads, peeking the first payload
of the response body stream and then consuming the stream yields exactly
the same payloads, in the same order, as consuming the stream without any
preceding peek; in particular the previously peeked first payload (which
`peek` returns, the head of the sequence) is still yielded first. -/
theorem c1_peek_is_nondestructive (payloads : List Payload) :
    ((PeekableStream.ofList payloads).peek.2).toList =
        (PeekableStream.ofList payloads).toList ∧
    (PeekableStream.ofList payloads).toList = payloads ∧
    (PeekableStream.ofList payloads).peek.1 = payloads.head? := by
  refine ⟨?_, PeekableStream.ofList_toList payloads,
    PeekableStream.peek_ofList_fst payloads⟩
  rw [PeekableStream.peek_ofList_toList, PeekableStream.ofList_toList]

/-- C2: when the context key "set_status_code" holds a `u16` that is a
valid status code, the router-level response transform sets the outward
status to exactly that code; when nothing was written under that key, the
outward status remains the default success status 200. -/
theorem c2_negotiated_status_applied (r : RouterResponse) :
    (∀ v, r.context.getU16 "set_status_code" = .ok (some v) →
      validStatusCode v = true → (changeStatusCode_router_map r).status = v) ∧
    (r.context.getRaw "set_status_code" = none → r.status = 200 →
      (changeStatusCode_router_map r).status = 200) := by
  constructor
  · intro v hget hvalid
    simp [changeStatusCode_router_map, hget, statusFromU16OrOK, hvalid]
  · intro hnone hdef
    simp [changeStatusCode_router_map, Context.getU16, hnone, hdef]

/-- Witness for C2 at two concrete router responses: one whose context
holds the valid code 418, one whose context is empty. -/
theorem c2_negotiated_status_applied_witness :
    (changeStatusCode_router_map
        ⟨200, [], ⟨[("set_status_code", CtxVal.u16 418)]⟩⟩).status = 418 ∧
    (changeStatusCode_router_map ⟨200, [], ⟨[]⟩⟩).status = 200 :=
  ⟨(c2_negotiated_status_applied
      ⟨200, [], ⟨[("set_status_code", CtxVal.u16 418)]⟩⟩).1 418 rfl rfl,
   (c2_negotiated_status_applied ⟨200, [], ⟨[]⟩⟩).2 rfl rfl⟩

/-- C4: when the context key "set_status_code" holds a value that is not a
valid status code — a `u16` outside 100..=999, or a value of a different
stored type — the outward status stays at the default success value 200,
and the transform still returns a response (it is a total function, so no
error is raised). -/
theorem c4_invalid_negotiated_value_falls_back (r : RouterResponse)
    (hdef : r.status = 200) :
    (∀ v, r.context.getRaw "set_status_code" = some (.u16 v) →
      validStatusCode v = false → (changeStatusCode_router_map r).status = 200) ∧
    (∀ w, r.context.getRaw "set_status_code" = some w → (∀ v, w ≠ .u16 v) →
      (changeStatusCode_router_map r).status = 200) := by
  constructor
  · intro v hraw hinvalid
    have hget : r.context.getU16 "set_status_code" = .ok (some v) := by
      simp [Context.getU16, hraw]
    simp [changeStatusCode_router_map, hget, statusFromU16OrOK, hinvalid]
  · intro w hraw hnotu16
    have hget : r.context.getU16 "set_status_code" = .error () := by
      cases w with
      | u16 v => exact absurd rfl (hnotu16 v)
      | u8 n => simp [Context.getU16, hraw]
      | bool b => simp [Context.getU16, hraw]
      | durations l => simp [Context.getU16, hraw]
    simp [changeStatusCode_router_map, hget, hdef]

/-- Witness for C4 at two concrete router responses: a `u16` out of the
valid range (1000), and a value of a different stored type (a `bool`). -/
theorem c4_invalid_negotiated_value_falls_back_witness :
    (changeStatusCode_router_map
        ⟨200, [], ⟨[("set_status_code", CtxVal.u16 1000)]⟩⟩).status = 200 ∧
    (changeStatusCode_router_map
        ⟨200, [], ⟨[("set_status_code", CtxVal.bool true)]⟩⟩).status = 200 :=
  ⟨(c4_invalid_negotiated_value_falls_back
      ⟨200, [], ⟨[("set_status_code", CtxVal.u16 1000)]⟩⟩ rfl).1 1000 rfl rfl,
   (c4_invalid_negotiated_value_falls_back
      ⟨200, [], ⟨[("set_status_code", CtxVal.bool true)]⟩⟩ rfl).2
      (CtxVal.bool true) rfl (fun _ h => CtxVal.noConfusion h)⟩

/-- C5: when the downstream subgraph call returns transport status 200,
the subgraph-level transform flags the request by writing 401 under
"set_status_code"; a router-level response carrying that shared context
then has its outward status overridden to 401, whatever its own status
was. -/
theorem c5_subgraph_flag_overrides_status
    (sub : SubgraphResponse) (r : RouterResponse)
    (hok : sub.status = 200)
    (hshared : r.context = (changeStatusCode_subgraph_map sub).context) :
    (changeStatusCode_router_map r).status = 401 := by
  have hctx : r.context = sub.context.insert "set_status_code" (.u16 401) := by
    rw [hshared]; simp [changeStatusCode_subgraph_map, hok]
  have hget : r.context.getU16 "set_status_code" = .ok (some 401) := by
    rw [hctx]; simp [Context.getU16, Context.getRaw_insert_self]
  simp [changeStatusCode_router_map, hget, statusFromU16OrOK, validStatusCode]

/-- Witness for C5: a concrete subgraph response with status 200, and a
router response with its own status 500 carrying the flagged context; the
outward status becomes 401 regardless. -/
theorem c5_subgraph_flag_overrides_status_witness :
    (changeStatusCode_router_map
      ⟨500, [], (changeStatusCode_subgraph_map ⟨200, ⟨[]⟩⟩).context⟩).status = 401 :=
  c5_subgraph_flag_overrides_status ⟨200, ⟨[]⟩⟩
    ⟨500, [], (changeStatusCode_subgraph_map ⟨200, ⟨[]⟩⟩).context⟩ rfl rfl

/-- C3: with the peek wrapper installed (configuration `enabled = false`,
the branch that wraps the inner service), if the primary (first) payload
carries an error whose extensions entry "type" equals
"ValidationInvalidTypeVariable", the interceptor peeks it, sets the
outward status to UNAUTHORIZED (401), and still forwards the intact
stream, first payload included and unmodified; if the primary payload
carries no such error, the outward status is left unchanged and the
stream is likewise forwarded intact. -/
theorem c3_first_payload_error_sets_unauthorized (r : SupergraphResponse) :
    (∀ p, r.body.head? = some p → hasInvalidTypeError p = true →
      (catchInvalidTypeError_supergraph false r).status = 401 ∧
      (catchInvalidTypeError_supergraph false r).body = r.body) ∧
    (∀ p, r.body.head? = some p → hasInvalidTypeError p = false →
      (catchInvalidTypeError_supergraph false r).status = r.status ∧
      (catchInvalidTypeError_supergraph false r).body = r.body) := by
  have hbody : (catchInvalidTypeError_supergraph false r).body = r.body := by
    simp [catchInvalidTypeError_supergraph, catchInvalidTypeError_mapFirst_body,
      catchInvalidTypeError_mapFuture_body]
  constructor
  · intro p hhead herr
    refine ⟨?_, hbody⟩
    cases hb : r.body with
    | nil => rw [hb] at hhead; cases hhead
    | cons q t =>
        rw [hb] at hhead
        have hq : q = p := by simpa using hhead
        subst hq
        simp [catchInvalidTypeError_supergraph, catchInvalidTypeError_mapFirst,
          catchInvalidTypeError_mapFuture, hb, PeekableStream.ofList,
          PeekableStream.peek, PeekableStream.toList_mk_some, herr]
  · intro p hhead herr
    refine ⟨?_, hbody⟩
    cases hb : r.body with
    | nil => rw [hb] at hhead; cases hhead
    | cons q t =>
        rw [hb] at hhead
        have hq : q = p := by simpa using hhead
        subst hq
        simp [catchInvalidTypeError_supergraph, catchInvalidTypeError_mapFirst,
          catchInvalidTypeError_mapFuture, hb, PeekableStream.ofList,
          PeekableStream.peek, PeekableStream.toList_mk_some, herr]

/-- Witness for C3 at two concrete supergraph responses: a primary payload
carrying the invalid-type error record (status becomes 401, body intact),
and a primary payload with no errors (status stays 200, body intact). -/
theorem c3_first_payload_error_sets_unauthorized_witness :
    ((catchInvalidTypeError_supergraph false
        ⟨200, [⟨none,
          [⟨"invalid type", [("type", Value.str "ValidationInvalidTypeVariable")]⟩],
          []⟩], ⟨[]⟩⟩).status = 401 ∧
      (catchInvalidTypeError_supergraph false
        ⟨200, [⟨none,
          [⟨"invalid type", [("type", Value.str "ValidationInvalidTypeVariable")]⟩],
          []⟩], ⟨[]⟩⟩).body =
        [⟨none,
          [⟨"invalid type", [("type", Value.str "ValidationInvalidTypeVariable")]⟩],
          []⟩]) ∧
    (catchInvalidTypeError_supergraph false
        ⟨200, [⟨some (Value.str "me"), [], []⟩], ⟨[]⟩⟩).status = 200 :=
  ⟨(c3_first_payload_error_sets_unauthorized
      ⟨200, [⟨none,
        [⟨"invalid type", [("type", Value.str "ValidationInvalidTypeVariable")]⟩],
        []⟩], ⟨[]⟩⟩).1
      ⟨none, [⟨"invalid type", [("type", Value.str "ValidationInvalidTypeVariable")]⟩],
        []⟩ rfl (by decide),
   ((c3_first_payload_error_sets_unauthorized
      ⟨200, [⟨some (Value.str "me"), [], []⟩], ⟨[]⟩⟩).2
      ⟨some (Value.str "me"), [], []⟩ rfl (by decide)).1⟩

/-- C6 counterexample: at the concrete input of an empty context and a
query-planning failure wrapping the invalid-type leaf variant, the
wrapper's returned context does not hold 401 under "set_status_code" —
the claimed context side effect does not happen. -/
theorem c6_no_side_effect_counterexample :
    (catchQueryPlannerError_qp_map ⟨[]⟩
        (Except.error (BoxError.invalidType "invalid type error"))).1.getRaw
      "set_status_code" ≠ some (CtxVal.u16 401) := by
  decide

/-- C6 amended: the query-planning wrapper passes every result — a
success, an invalid-type error, or any other opaque error — through
unchanged, with zero context side effects: the downcast-and-flag chain is
commented out in the source pending a query-planner refactor, so no status
code is written even for invalid-type errors. -/
theorem c6_query_planner_wrapper_passthrough (ctx : Context)
    (result : Except BoxError QueryPlannerResponse) :
    catchQueryPlannerError_qp_map ctx result = (ctx, result) :=
  rfl

/-- C7: a context write performed by the execution-level stream closure
(inserting "after-first-response-context" = 42 while producing a payload)
is visible to the router-level stream closure that processes the same and
all subsequent payloads: the router-level closure's read of that key
returns 42 for every payload the composed pipeline processes, whatever the
initial context was. -/
theorem c7_context_write_visible_downstream (context : Context)
    (bodies : List Payload) :
    (processStream context bodies).1.map Prod.snd =
      bodies.map fun _ => Except.ok (some 42) := by
  induction bodies generalizing context with
  | nil => rfl
  | cons b t ih =>
      simp [processStream, handle_execution_response, handle_router_response,
        Context.getU8, Context.getRaw_insert_self, ih]

/-- C8: with `upsert` the atomic read-modify-write step of §4.1 (its
implementation lives in the `apollo_router` dependency), any interleaving
of N concurrent timing appends to "subgraph-response-times" — i.e. any
order in which the N atomic steps hit the store — accumulates, starting
from a context without the key, exactly the appends in that order: all N
entries are present, a permutation of the N appended entries, with no lost
updates. -/
theorem c8_upsert_accumulates_all_appends (calls order : List (String × Nat))
    (ctx : Context)
    (hinterleaving : order.Perm calls)
    (habsent : ctx.getRaw "subgraph-response-times" = none) :
    storedTimings (runTimingAppends order ctx) = order ∧
    (storedTimings (runTimingAppends order ctx)).Perm calls ∧
    (storedTimings (runTimingAppends order ctx)).length = calls.length := by
  have hstored : storedTimings (runTimingAppends order ctx) = order := by
    cases order with
    | nil => simp [runTimingAppends, storedTimings, habsent]
    | cons e t =>
        have hstep :
            (subgraphTiming_upsert e.1 e.2 ctx).getRaw "subgraph-response-times" =
              some (.durations [e]) := by
          simp [subgraphTiming_upsert, Context.upsert, habsent,
            Context.getRaw_insert_self]
        have := runTimingAppends_getRaw t (subgraphTiming_upsert e.1 e.2 ctx) [e] hstep
        simp only [runTimingAppends, List.foldl_cons] at *
        simp [storedTimings, this]

  refine ⟨hstored, ?_, ?_⟩
  · rw [hstored]; exact hinterleaving
  · rw [hstored]; exact hinterleaving.length_eq

/-- Witness for C8: two concurrent appends landing in the opposite of
their listed order still both end up in the stored list. -/
theorem c8_upsert_accumulates_all_appends_witness :
    storedTimings (runTimingAppends [("reviews", 2), ("accounts", 1)] ⟨[]⟩) =
      [("reviews", 2), ("accounts", 1)] ∧
    (storedTimings (runTimingAppends [("reviews", 2), ("accounts", 1)] ⟨[]⟩)).Perm
      [("accounts", 1), ("reviews", 2)] ∧
    (storedTimings (runTimingAppends [("reviews", 2), ("accounts", 1)] ⟨[]⟩)).length =
      ([("accounts", 1), ("reviews", 2)] : List (String × Nat)).length :=
  c8_upsert_accumulates_all_appends [("accounts", 1), ("reviews", 2)]
    [("reviews", 2), ("accounts", 1)] ⟨[]⟩ (by decide) rfl

/-- C9: every stream-wrapping transform forwards payload contents
unchanged — the per-payload closures of both stream-propagation plugins
return their payload as-is (only reading or writing the shared context),
the composed per-payload pipeline forwards the payload list identically,
and the peek-based supergraph wrapper leaves the body untouched; the only
client-observable effects are the transport status (and headers). -/
theorem c9_payloads_forwarded_unmodified :
    (∀ (body : Payload) (context : Context),
      (handle_execution_response body context).1 = body) ∧
    (∀ (body : Payload) (context : Context),
      (handle_router_response body context).1 = body) ∧
    (∀ (context : Context) (bodies : List Payload),
      (processStream context bodies).1.map Prod.fst = bodies) ∧
    (∀ (body : Payload) (context : Context),
      (testPlugin_handle_execution_response body context).1 = body) ∧
    (∀ (body : Payload) (context : Context),
      (testPlugin_handle_router_response body context).1 = body) ∧
    (∀ (enabled : Bool) (r : SupergraphResponse),
      (catchInvalidTypeError_supergraph enabled r).body = r.body) := by
  refine ⟨fun _ _ => rfl, fun _ _ => rfl, processStream_payloads,
    fun _ _ => rfl, fun _ _ => rfl, fun enabled r => ?_⟩
  cases enabled with
  | true => rfl
  | false =>
      simp [catchInvalidTypeError_supergraph, catchInvalidTypeError_mapFirst_body,
        catchInvalidTypeError_mapFuture_body]

/-- C10: with configuration flag `enabled = true`,
`CatchInvalidTypeError::supergraph_service` returns the inner service
unchanged (identity wrapping, no inspection, no override); the peek-based
first-payload inspection and UNAUTHORIZED override are installed only when
`enabled = false`. -/
theorem c10_enabled_flag_selects_identity_wrapping :
    (∀ r : SupergraphResponse, catchInvalidTypeError_supergraph true r = r) ∧
    (∀ r : SupergraphResponse, catchInvalidTypeError_supergraph false r =
      catchInvalidTypeError_mapFirst (catchInvalidTypeError_mapFuture r)) :=
  ⟨fun _ => rfl, fun _ => rfl⟩

end QuickStream
